import Mathlib

/-!
Verification of the `ques-qr` gallery application (`main/models.py`,
`main/views.py`, `main/forms.py`, `main/urls.py`).

The upload workflow, the first-open stamping, the QR endpoints and media
deletion are embedded as pure Lean functions over explicit state; machine
integers in the source are plain `Nat` (file sizes and counts never go
negative in the source).
-/

namespace QuesQR

/-- Python `s.startswith(pre)`, executably over the character list. -/
def py_startswith (s pre : String) : Bool :=
  pre.data.isPrefixOf s.data

/-- Python `s.endswith(suf)`, executably over the character list. -/
def py_endswith (s suf : String) : Bool :=
  suf.data.isSuffixOf s.data

/-- Python `s.strip()`: drop leading and trailing whitespace. -/
def py_strip (s : String) : String :=
  ⟨((s.data.dropWhile Char.isWhitespace).reverse.dropWhile Char.isWhitespace).reverse⟩

/-- An uploaded file as the view sees it: `f.name`, `f.size`,
`f.content_type` (the MIME type declared by the client). -/
structure UploadedFile where
  name : String
  size : Nat
  content_type : String
deriving Repr, DecidableEq

/-- A persisted `MediaItem` row, with the fields the claims mention.
`kind` is one of the strings "auto", "image", "video"
(`MediaItem.MediaKind` in `models.py`). -/
structure MediaItemRec where
  fileName : String
  kind : String
  caption : String
  sort_order : Nat
  mime_type : String
  file_size : Nat
deriving Repr, DecidableEq

/-- A `Gallery` row, with the fields the claims mention.
`first_opened_at` is an abstract timestamp (`none` = NULL). -/
structure Gallery where
  uuid : String
  upload_pin : String
  first_opened_at : Option Nat
  media : List MediaItemRec
deriving Repr, DecidableEq

/-- Model of Python's stdlib `mimetypes.guess_type`, keyed on the filename
extension, restricted to the extensions used in concrete inputs here; an
unrecognised or missing extension yields `none`, exactly as the stdlib
returns `(None, None)` for an unknown extension. -/
def mimetypes_guess_type (name : String) : Option String :=
  if py_endswith name ".png" then some "image/png"
  else if py_endswith name ".jpg" then some "image/jpeg"
  else if py_endswith name ".gif" then some "image/gif"
  else if py_endswith name ".mp4" then some "video/mp4"
  else if py_endswith name ".mov" then some "video/quicktime"
  else if py_endswith name ".txt" then some "text/plain"
  else if py_endswith name ".pdf" then some "application/pdf"
  else none

/-- `MediaItem.save` (`models.py` lines 123-136): fill `mime_type` from the
file name when empty, refresh `file_size`, and resolve `kind` from the MIME
prefix when it is still "auto" and a MIME type is known.
`guessType` is the `mimetypes.guess_type` function (a parameter so the
theorems hold for any extension table). -/
def MediaItem_save (guessType : String → Option String) (f : UploadedFile)
    (m : MediaItemRec) : MediaItemRec :=
  let mime := if m.mime_type = "" then (guessType f.name).getD "" else m.mime_type
  let fsize := f.size
  let kind :=
    if m.kind = "auto" ∧ mime ≠ "" then
      if py_startswith mime "image/" then "image"
      else if py_startswith mime "video/" then "video"
      else m.kind
    else m.kind
  { m with mime_type := mime, file_size := fsize, kind := kind }

/-- `MediaItem.objects.create(...)` as done in `gallery_view`
(`views.py` lines 96-102): a fresh row with default `kind = "auto"` and
empty `mime_type`, then `save` runs. -/
def MediaItem_create (guessType : String → Option String) (f : UploadedFile)
    (caption : String) (sort_order : Nat) : MediaItemRec :=
  MediaItem_save guessType f
    { fileName := f.name, kind := "auto", caption := caption,
      sort_order := sort_order, mime_type := "", file_size := 0 }

/-- `size_ok` from the per-file validation (`views.py` line 83). -/
def size_ok (max_bytes : Nat) (f : UploadedFile) : Bool :=
  f.size ≤ max_bytes

/-- `type_ok` from the per-file validation (`views.py` lines 84-85):
the declared content type starts with "image/" or "video/". -/
def type_ok (f : UploadedFile) : Bool :=
  py_startswith f.content_type "image/" || py_startswith f.content_type "video/"

/-- A file passes both per-file checks. -/
def file_ok (max_bytes : Nat) (f : UploadedFile) : Bool :=
  size_ok max_bytes f && type_ok f

/-- The per-file loop of `gallery_view` (`views.py` lines 81-103), carrying
the running index `idx` of `enumerate(files)`.  Returns the created rows in
order and the error count; a failing file is skipped (error counted) and
the loop continues. -/
def upload_loop (guessType : String → Option String) (max_bytes : Nat)
    (caption : String) (base_order : Nat) :
    List UploadedFile → Nat → List MediaItemRec × Nat
  | [], _ => ([], 0)
  | f :: fs, idx =>
    let rest := upload_loop guessType max_bytes caption base_order fs (idx + 1)
    if ¬ size_ok max_bytes f then (rest.1, rest.2 + 1)
    else if ¬ type_ok f then (rest.1, rest.2 + 1)
    else (MediaItem_create guessType f caption (base_order + idx) :: rest.1, rest.2)

/-- Outcome of one POST of the upload workflow (`gallery_view`, POST
branch).  The three error constructors are the three early redirects with
an error message; `done` carries the created rows, the error count and the
raw truncation flag `len(files) > remaining`. -/
inductive UploadResult where
  | pinError
  | noFiles
  | capacityError
  | done (items : List MediaItemRec) (errors : Nat) (truncated : Bool)
deriving Repr, DecidableEq

/-- The upload workflow of `gallery_view` (`views.py` lines 48-111) on a
valid form.  `max_mb` is `settings.GALLERY_MAX_UPLOAD_MB`; `pin`, `caption`,
`start_order` are the cleaned form fields; `files` is
`request.FILES.getlist("files")`.  Python's `max(0, 5 - existing)` is `Nat`
truncated subtraction. -/
def gallery_upload (guessType : String → Option String) (max_mb : Nat)
    (g : Gallery) (files : List UploadedFile) (pin caption : String)
    (start_order : Option Nat) : UploadResult :=
  let max_bytes := max_mb * 1024 * 1024
  let want_pin := if g.upload_pin ≠ "" then py_strip g.upload_pin else ""
  let got_pin := py_strip pin
  if want_pin ≠ "" ∧ want_pin ≠ got_pin then .pinError
  else if files = [] then .noFiles
  else
    let existing := g.media.length
    let remaining := 5 - existing
    if remaining = 0 then .capacityError
    else
      let files2 := files.take remaining
      let base_order := start_order.getD existing
      let r := upload_loop guessType max_bytes caption base_order files2 0
      .done r.1 r.2 (decide (remaining < files.length))

/-- The `MediaItem` rows an upload outcome created (empty on every early
rejection: those paths redirect before any `objects.create`). -/
def UploadResult.createdItems : UploadResult → List MediaItemRec
  | .done items _ _ => items
  | _ => []

/-- The per-file error count of an upload outcome. -/
def UploadResult.errorCount : UploadResult → Nat
  | .done _ errors _ => errors
  | _ => 0

/-- Whether the success message `"Загружено файлов: ..."` is emitted
(`views.py` line 105-106): only in the `done` case with `created` nonzero. -/
def UploadResult.successMsg : UploadResult → Bool
  | .done items _ _ => ! items.isEmpty
  | _ => false

/-- Whether the truncation warning (`views.py` lines 107-108) is emitted:
inside `if created:`, when the submitted list exceeded the remaining
capacity. -/
def UploadResult.truncWarning : UploadResult → Bool
  | .done items _ truncated => (! items.isEmpty) && truncated
  | _ => false

/-- Whether the batch-level failure `"Ни один файл не был загружен."`
(`views.py` lines 109-110) is emitted. -/
def UploadResult.noneCreatedMsg : UploadResult → Bool
  | .done items errors _ => items.isEmpty && decide (0 < errors)
  | _ => false

/-- The first-open stamping of `gallery_view` (`views.py` lines 38-41):
`if not gallery.first_opened_at: gallery.first_opened_at = now; save`. -/
def stamp_first_opened (now : Nat) (g : Gallery) : Gallery :=
  if g.first_opened_at = none then { g with first_opened_at := some now } else g

/-- The `need_pin` flag of the gallery page context (`views.py` line 122):
`bool(gallery.upload_pin.strip()) if gallery.upload_pin else False`. -/
def need_pin (g : Gallery) : Bool :=
  if g.upload_pin ≠ "" then decide (py_strip g.upload_pin ≠ "") else false

/-- A `QRTag` row (`models.py`): unique token pointing at a gallery. -/
structure QRTagRec where
  token : String
  galleryUuid : String
deriving Repr, DecidableEq

/-- The persistent store as the QR endpoints see it. -/
structure Store where
  galleries : List Gallery
  qr_tags : List QRTagRec
deriving Repr

/-- `get_object_or_404(Gallery, uuid=...)`: both QR views
(`views.py` lines 14-31) look the path argument up ONLY as a gallery uuid. -/
def find_gallery (store : Store) (u : String) : Option Gallery :=
  store.galleries.find? (fun g => g.uuid = u)

/-- An HTTP response of a QR endpoint: the URL encoded in the PNG (relative
part; the host prefix of `build_absolute_uri` is elided), the content type
and the `Content-Disposition` header if set. -/
structure QRResponse where
  url : String
  content_type : String
  disposition : Option String
deriving Repr, DecidableEq

/-- `qrcode_image` (`views.py` lines 14-20): `none` is `Http404`. -/
def qrcode_image (store : Store) (arg : String) : Option QRResponse :=
  (find_gallery store arg).map (fun g =>
    { url := "/g/" ++ g.uuid, content_type := "image/png", disposition := none })

/-- `qrcode_download` (`views.py` lines 22-31): `none` is `Http404`. -/
def qrcode_download (store : Store) (arg : String) : Option QRResponse :=
  (find_gallery store arg).map (fun g =>
    { url := "/g/" ++ g.uuid, content_type := "image/png",
      disposition := some ("attachment; filename=\"qrcode_" ++ g.uuid ++ ".png\"") })

/-- State touched by `media_delete`: the `MediaItem` rows as
`(id, gallery uuid)` pairs and the set of item ids whose file content
exists in storage. -/
structure DelState where
  items : List (Nat × String)
  storage : List Nat
deriving Repr, DecidableEq

/-- `media_delete` (`views.py` lines 128-143).  `storageFails` models the
storage backend raising inside `item.file.delete` (the `try`/`except`
swallows it and the row is deleted regardless); `none` is `Http404`. -/
def media_delete (storageFails : Bool) (galleries : List String)
    (method uuid : String) (item_id : Nat) (st : DelState) :
    Option DelState :=
  if method ≠ "POST" then none
  else if ¬ galleries.contains uuid then none
  else
    match st.items.find? (fun p => p.1 == item_id && p.2 == uuid) with
    | none => none
    | some _ =>
      let storage2 := if storageFails then st.storage
                      else st.storage.filter (fun i => i ≠ item_id)
      some { items := st.items.filter (fun p => p.1 ≠ item_id),
             storage := storage2 }

/-! ### Concrete fixtures (used by witnesses and counterexamples) -/

/-- A gallery with no upload PIN, never opened, no media. -/
def gNoPin : Gallery :=
  { uuid := "u-1", upload_pin := "", first_opened_at := none, media := [] }

/-- A gallery whose upload PIN trims to "1234". -/
def gPin : Gallery :=
  { uuid := "u-2", upload_pin := " 1234 ", first_opened_at := none, media := [] }

/-- A gallery whose upload PIN is whitespace only. -/
def gWs : Gallery :=
  { uuid := "u-3", upload_pin := "   ", first_opened_at := none, media := [] }

/-- A pre-existing media row, used to pre-populate galleries. -/
def oldItem : MediaItemRec :=
  { fileName := "old.png", kind := "image", caption := "", sort_order := 0,
    mime_type := "image/png", file_size := 1 }

/-- A gallery that already holds 4 media rows. -/
def gFour : Gallery :=
  { uuid := "u-4", upload_pin := "", first_opened_at := none,
    media := [oldItem, oldItem, oldItem, oldItem] }

/-- A gallery that already holds 5 media rows (capacity exhausted). -/
def gFive : Gallery :=
  { uuid := "u-5", upload_pin := "", first_opened_at := none,
    media := [oldItem, oldItem, oldItem, oldItem, oldItem] }

/-- A valid image upload. -/
def fGood : UploadedFile :=
  { name := "pic.png", size := 1000, content_type := "image/png" }

/-- A valid video upload. -/
def fVid : UploadedFile :=
  { name := "clip.mp4", size := 2000, content_type := "video/mp4" }

/-- A file with a disallowed declared content type. -/
def fBadType : UploadedFile :=
  { name := "notes.txt", size := 10, content_type := "text/plain" }

/-- A file exceeding the 100 MB default size limit by one byte. -/
def fBig : UploadedFile :=
  { name := "huge.png", size := 100 * 1024 * 1024 + 1, content_type := "image/png" }

/-- A file with a declared image content type but no filename extension,
so `mimetypes.guess_type` cannot guess a MIME type for it. -/
def fNoExt : UploadedFile :=
  { name := "photo", size := 10, content_type := "image/png" }

/-- Store with one gallery and one QR tag whose token points at it. -/
def tagStore : Store :=
  { galleries := [gNoPin], qr_tags := [{ token := "abc123", galleryUuid := "u-1" }] }

/-- Deletion state: item 1 in gallery "u-1", item 2 in "u-2", both with
stored file content. -/
def exDelState : DelState :=
  { items := [(1, "u-1"), (2, "u-2")], storage := [1, 2] }

/-! ### Helper lemmas -/

/-- `gallery.upload_pin.strip() if gallery.upload_pin else ""` is just
`py_strip gallery.upload_pin`, because stripping the empty string yields
the empty string. -/
lemma want_pin_eq (g : Gallery) :
    (if g.upload_pin ≠ "" then py_strip g.upload_pin else "") = py_strip g.upload_pin := by
  split_ifs with h
  · rfl
  · rw [not_not.mp h]; rfl

/-- `save` does not touch `sort_order`. -/
lemma MediaItem_create_sort_order (gt : String → Option String) (f : UploadedFile)
    (cap : String) (s : Nat) : (MediaItem_create gt f cap s).sort_order = s := by
  simp only [MediaItem_create, MediaItem_save]

/-- The `kind` a freshly created row ends up with, as a function of the MIME
type guessed from the file name (`MediaItem.save`): the declared content
type plays no role. -/
lemma MediaItem_create_kind (gt : String → Option String) (f : UploadedFile)
    (cap : String) (s : Nat) :
    (MediaItem_create gt f cap s).kind =
      (match gt f.name with
       | some mime =>
         if py_startswith mime "image/" then "image"
         else if py_startswith mime "video/" then "video"
         else "auto"
       | none => "auto") := by
  cases hg : gt f.name with
  | none => simp [MediaItem_create, MediaItem_save, hg]
  | some mime =>
    by_cases hm : mime = ""
    · subst hm
      simp [MediaItem_create, MediaItem_save, hg,
        show py_startswith "" "image/" = false from by decide,
        show py_startswith "" "video/" = false from by decide]
    · simp [MediaItem_create, MediaItem_save, hg, hm]

/-- Full characterization of the per-file loop: the created rows are the
validation-passing files of the enumerated list, each with sort order
`base + index`, and the error count is the number of failing files. -/
lemma upload_loop_spec (gt : String → Option String) (mb : Nat) (cap : String)
    (base : Nat) (fs : List UploadedFile) (idx : Nat) :
    upload_loop gt mb cap base fs idx =
      (((fs.enumFrom idx).filterMap fun p =>
          if file_ok mb p.2 then some (MediaItem_create gt p.2 cap (base + p.1)) else none),
        fs.countP fun f => ! file_ok mb f) := by
  induction fs generalizing idx with
  | nil => simp [upload_loop]
  | cons f fs ih =>
    simp only [upload_loop, ih, List.enumFrom, List.filterMap_cons, List.countP_cons]
    by_cases hs : size_ok mb f
    · by_cases ht : type_ok f
      · simp [file_ok, hs, ht]
      · simp [file_ok, hs, ht]
    · simp [file_ok, hs]

/-- The number of rows the loop creates is the number of passing files. -/
lemma upload_loop_length (gt : String → Option String) (mb : Nat) (cap : String)
    (base : Nat) (fs : List UploadedFile) (idx : Nat) :
    (upload_loop gt mb cap base fs idx).1.length = fs.countP (fun f => file_ok mb f) := by
  induction fs generalizing idx with
  | nil => simp [upload_loop]
  | cons f fs ih =>
    simp only [upload_loop, List.countP_cons]
    by_cases hs : size_ok mb f
    · by_cases ht : type_ok f
      · simp [file_ok, hs, ht, ih]
      · simp [file_ok, hs, ht, ih]
    · simp [file_ok, hs, ih]

/-- Every sort order the loop assigns is at least `base + idx`. -/
lemma upload_loop_order_lb (gt : String → Option String) (mb : Nat) (cap : String)
    (base : Nat) (fs : List UploadedFile) (idx : Nat) (m : MediaItemRec)
    (hm : m ∈ (upload_loop gt mb cap base fs idx).1) : base + idx ≤ m.sort_order := by
  induction fs generalizing idx with
  | nil => simp [upload_loop] at hm
  | cons f fs ih =>
    simp only [upload_loop] at hm
    by_cases hs : size_ok mb f
    · by_cases ht : type_ok f
      · simp only [hs, ht, not_true_eq_false, if_false, List.mem_cons] at hm
        cases hm with
        | inl h => rw [h, MediaItem_create_sort_order]
        | inr h => exact le_trans (Nat.le_succ _) (Nat.add_succ base idx ▸ ih _ h)
      · simp only [hs, ht, not_true_eq_false, not_false_eq_true, if_false, if_true] at hm
        exact le_trans (Nat.le_succ _) (Nat.add_succ base idx ▸ ih _ hm)
    · simp only [hs, not_false_eq_true, if_true] at hm
      exact le_trans (Nat.le_succ _) (Nat.add_succ base idx ▸ ih _ hm)

/-- The sort orders assigned within one loop run are strictly increasing
with file position. -/
lemma upload_loop_order_sorted (gt : String → Option String) (mb : Nat) (cap : String)
    (base : Nat) (fs : List UploadedFile) (idx : Nat) :
    ((upload_loop gt mb cap base fs idx).1.map fun m => m.sort_order).Pairwise (· < ·) := by
  induction fs generalizing idx with
  | nil => simp [upload_loop]
  | cons f fs ih =>
    simp only [upload_loop]
    by_cases hs : size_ok mb f
    · by_cases ht : type_ok f
      · simp only [hs, ht, not_true_eq_false, if_false, List.map_cons]
        refine List.Pairwise.cons ?_ (ih (idx + 1))
        intro o ho
        rw [MediaItem_create_sort_order]
        obtain ⟨m, hm, rfl⟩ := List.mem_map.mp ho
        exact lt_of_lt_of_le (Nat.lt_succ_self _)
          (Nat.add_succ base idx ▸ upload_loop_order_lb gt mb cap base fs (idx + 1) m hm)
      · simpa [hs, ht] using ih (idx + 1)
    · simpa [hs] using ih (idx + 1)

/-- Inversion: when the workflow reports `done`, the guards passed and the
components are those of the loop over the truncated list. -/
lemma gallery_upload_done_inv (gt : String → Option String) (mb : Nat) (g : Gallery)
    (files : List UploadedFile) (pin cap : String) (so : Option Nat)
    (items : List MediaItemRec) (errors : Nat) (trunc : Bool)
    (h : gallery_upload gt mb g files pin cap so = .done items errors trunc) :
    items = (upload_loop gt (mb * 1024 * 1024) cap (so.getD g.media.length)
              (files.take (5 - g.media.length)) 0).1 ∧
    errors = (upload_loop gt (mb * 1024 * 1024) cap (so.getD g.media.length)
              (files.take (5 - g.media.length)) 0).2 ∧
    trunc = decide (5 - g.media.length < files.length) ∧
    g.media.length < 5 ∧ files ≠ [] := by
  simp only [gallery_upload] at h
  rw [want_pin_eq] at h
  split_ifs at h with h1 h2 h3
  obtain ⟨rfl, rfl, rfl⟩ := UploadResult.done.inj h
  refine ⟨rfl, rfl, rfl, ?_, h2⟩
  omega

/-- In any list, passing and failing elements together account for its
length. -/
lemma countP_add_countP_not {α : Type} (p : α → Bool) (l : List α) :
    l.countP p + l.countP (fun a => ! p a) = l.length := by
  induction l with
  | nil => rfl
  | cons a l ih =>
    simp only [List.countP_cons]
    cases h : p a <;> simp [h] <;> omega

/-- When the PIN guard does not fire, the workflow is the remaining chain
of checks over the truncated file list. -/
lemma gallery_upload_eq (gt : String → Option String) (mb : Nat) (g : Gallery)
    (files : List UploadedFile) (pin cap : String) (so : Option Nat)
    (hpin : ¬ (py_strip g.upload_pin ≠ "" ∧ py_strip g.upload_pin ≠ py_strip pin)) :
    gallery_upload gt mb g files pin cap so =
      if files = [] then .noFiles
      else if 5 - g.media.length = 0 then .capacityError
      else
        .done (upload_loop gt (mb * 1024 * 1024) cap (so.getD g.media.length)
                (files.take (5 - g.media.length)) 0).1
              (upload_loop gt (mb * 1024 * 1024) cap (so.getD g.media.length)
                (files.take (5 - g.media.length)) 0).2
              (decide (5 - g.media.length < files.length)) := by
  simp only [gallery_upload]
  rw [want_pin_eq, if_neg hpin]

/-! ### Claim theorems -/

/-- Claim C1: for every gallery whose upload PIN is non-empty after
trimming, a batch whose submitted PIN (trimmed) differs from the gallery's
PIN (trimmed) is rejected as an authorization failure and creates zero
MediaItem rows. -/
theorem upload_wrong_pin_rejected (gt : String → Option String) (mb : Nat)
    (g : Gallery) (files : List UploadedFile) (pin cap : String) (so : Option Nat)
    (hpin : py_strip g.upload_pin ≠ "")
    (hne : py_strip pin ≠ py_strip g.upload_pin) :
    gallery_upload gt mb g files pin cap so = .pinError ∧
    (gallery_upload gt mb g files pin cap so).createdItems = [] := by
  have hmain : gallery_upload gt mb g files pin cap so = .pinError := by
    simp only [gallery_upload]
    rw [want_pin_eq, if_pos ⟨hpin, Ne.symm hne⟩]
  exact ⟨hmain, by rw [hmain]; rfl⟩

/-- Witness for C1: PIN " 1234 " (trims to "1234") against submitted
"9999". -/
theorem upload_wrong_pin_rejected_witness :
    gallery_upload mimetypes_guess_type 100 gPin [fGood] "9999" "" none = .pinError ∧
    (gallery_upload mimetypes_guess_type 100 gPin [fGood] "9999" "" none).createdItems = [] :=
  upload_wrong_pin_rejected mimetypes_guess_type 100 gPin [fGood] "9999" "" none
    (by decide) (by decide)

/-- Claim C5: `first_opened_at` is stamped with the current time on exactly
the first retrieval (when unset) and left unchanged by every later
retrieval. -/
theorem first_opened_set_once (g : Gallery) (now now2 : Nat) :
    (g.first_opened_at = none → (stamp_first_opened now g).first_opened_at = some now) ∧
    (∀ t, g.first_opened_at = some t → stamp_first_opened now g = g) ∧
    stamp_first_opened now2 (stamp_first_opened now g) = stamp_first_opened now g := by
  cases h : g.first_opened_at with
  | none => simp [stamp_first_opened, h]
  | some t => simp [stamp_first_opened, h]

/-- Witness for C5: a never-opened gallery stamped at time 5, retrieved
again at time 7. -/
theorem first_opened_set_once_witness :
    (gNoPin.first_opened_at = none → (stamp_first_opened 5 gNoPin).first_opened_at = some 5) ∧
    (∀ t, gNoPin.first_opened_at = some t → stamp_first_opened 5 gNoPin = gNoPin) ∧
    stamp_first_opened 7 (stamp_first_opened 5 gNoPin) = stamp_first_opened 5 gNoPin :=
  first_opened_set_once gNoPin 5 7

/-- Claim C10: when the configured upload PIN is empty or whitespace only,
the PIN check never rejects (any submitted PIN passes) and the `need_pin`
flag surfaced to the page is false. -/
theorem upload_blank_pin_skipped (gt : String → Option String) (mb : Nat)
    (g : Gallery) (files : List UploadedFile) (pin cap : String) (so : Option Nat)
    (h : py_strip g.upload_pin = "") :
    gallery_upload gt mb g files pin cap so ≠ .pinError ∧ need_pin g = false := by
  constructor
  · rw [gallery_upload_eq gt mb g files pin cap so (by simp [h])]
    split_ifs <;> simp
  · simp [need_pin, h]

/-- Witness for C10: whitespace-only PIN "   ", arbitrary submitted PIN
"9999". -/
theorem upload_blank_pin_skipped_witness :
    gallery_upload mimetypes_guess_type 100 gWs [fGood] "9999" "" none ≠ .pinError ∧
    need_pin gWs = false :=
  upload_blank_pin_skipped mimetypes_guess_type 100 gWs [fGood] "9999" "" none (by decide)

/-- Counterexample to C2 as stated: the file "photo" is accepted (declared
content type "image/png" passes the prefix check) but is persisted with
kind "auto", because `MediaItem.save` infers the kind from the MIME type
guessed from the file NAME, and no type can be guessed for a name without
an extension. -/
theorem upload_kind_auto_counterexample :
    type_ok fNoExt = true ∧
    (gallery_upload mimetypes_guess_type 100 gNoPin [fNoExt] "" "" none).createdItems.map
      (fun m => m.kind) = ["auto"] := by decide

/-- Amended C2: every row the workflow creates comes from a submitted file
whose DECLARED content type starts with "image/" or "video/" (that is what
acceptance checks), but its persisted kind is computed from the MIME type
guessed from the file's name: "image"/"video" for a guessed image/video
type, and still "auto" when nothing (or a type matching neither prefix)
can be guessed from the name. -/
theorem upload_kind_from_guessed_mime (gt : String → Option String) (mb : Nat)
    (g : Gallery) (files : List UploadedFile) (pin cap : String) (so : Option Nat)
    (m : MediaItemRec)
    (hm : m ∈ (gallery_upload gt mb g files pin cap so).createdItems) :
    ∃ f ∈ files,
      (py_startswith f.content_type "image/" || py_startswith f.content_type "video/") = true ∧
      m.kind = (match gt f.name with
       | some mime =>
         if py_startswith mime "image/" then "image"
         else if py_startswith mime "video/" then "video"
         else "auto"
       | none => "auto") := by
  rcases hres : gallery_upload gt mb g files pin cap so with _ | _ | _ | ⟨items, errors, trunc⟩ <;>
    rw [hres] at hm
  · simp [UploadResult.createdItems] at hm
  · simp [UploadResult.createdItems] at hm
  · simp [UploadResult.createdItems] at hm
  · obtain ⟨hitems, -, -, -, -⟩ :=
      gallery_upload_done_inv gt mb g files pin cap so items errors trunc hres
    simp only [UploadResult.createdItems, hitems, upload_loop_spec] at hm
    obtain ⟨⟨i, f⟩, hmem, hif⟩ := List.mem_filterMap.mp hm
    have hf : f ∈ files :=
      List.mem_of_mem_take (List.snd_mem_of_mem_enumFrom hmem)
    by_cases hok : file_ok (mb * 1024 * 1024) f
    · rw [if_pos hok] at hif
      obtain rfl := Option.some.inj hif
      refine ⟨f, hf, ?_, MediaItem_create_kind gt f cap _⟩
      have := (Bool.and_eq_true _ _).mp hok
      exact this.2
    · rw [if_neg hok] at hif
      exact absurd hif (Option.noConfusion)

/-- Witness for amended C2: a valid "pic.png" upload (guessed type
"image/png") in an empty gallery. -/
theorem upload_kind_from_guessed_mime_witness :
    ∃ f ∈ [fGood],
      (py_startswith f.content_type "image/" || py_startswith f.content_type "video/") = true ∧
      (MediaItem_create mimetypes_guess_type fGood "" 0).kind = (match mimetypes_guess_type f.name with
       | some mime =>
         if py_startswith mime "image/" then "image"
         else if py_startswith mime "video/" then "video"
         else "auto"
       | none => "auto") :=
  upload_kind_from_guessed_mime mimetypes_guess_type 100 gNoPin [fGood] "" "" none
    (MediaItem_create mimetypes_guess_type fGood "" 0) (by decide)

/-- Counterexample to C3 as stated: in the batch [disallowed "notes.txt",
valid "pic.png"] into an empty gallery, the single accepted file is at
position 0 among accepted files, yet its created row has sort order 1 (the
code advances the index over skipped files too). -/
theorem sort_order_position_counterexample :
    (gallery_upload mimetypes_guess_type 100 gNoPin [fBadType, fGood] "" "" none).createdItems.map
      (fun m => m.sort_order) = [1] ∧
    ([fBadType, fGood].filter fun f => file_ok (100 * 1024 * 1024) f) = [fGood] ∧
    (1 : Nat) ≠ 0 := by decide

/-- Amended C3: each created row's sort order is the base offset plus the
file's position among the SUBMITTED (truncated) files of the batch, and
the sort orders of one batch are strictly increasing with file position. -/
theorem sort_order_eq_base_plus_position (gt : String → Option String) (mb : Nat)
    (g : Gallery) (files : List UploadedFile) (pin cap : String) (so : Option Nat)
    (items : List MediaItemRec) (errors : Nat) (trunc : Bool)
    (h : gallery_upload gt mb g files pin cap so = .done items errors trunc) :
    items.map (fun m => m.sort_order) =
      ((files.take (5 - g.media.length)).enumFrom 0).filterMap
        (fun p => if file_ok (mb * 1024 * 1024) p.2
                  then some (so.getD g.media.length + p.1) else none) ∧
    (items.map fun m => m.sort_order).Pairwise (· < ·) := by
  obtain ⟨rfl, -, -, -, -⟩ :=
    gallery_upload_done_inv gt mb g files pin cap so items errors trunc h
  constructor
  · rw [upload_loop_spec, List.map_filterMap]
    congr 1
    funext p
    by_cases hok : file_ok (mb * 1024 * 1024) p.2
    · simp [hok, MediaItem_create_sort_order]
    · simp [hok]
  · exact upload_loop_order_sorted gt (mb * 1024 * 1024) cap
      (so.getD g.media.length) (files.take (5 - g.media.length)) 0

/-- Witness for amended C3: the counterexample batch, where the created
row's sort order is base 0 plus submitted position 1. -/
theorem sort_order_eq_base_plus_position_witness :
    [MediaItem_create mimetypes_guess_type fGood "" 1].map (fun m => m.sort_order) =
      (([fBadType, fGood].take (5 - gNoPin.media.length)).enumFrom 0).filterMap
        (fun p => if file_ok (100 * 1024 * 1024) p.2
                  then some ((none : Option Nat).getD gNoPin.media.length + p.1) else none) ∧
    ([MediaItem_create mimetypes_guess_type fGood "" 1].map fun m => m.sort_order).Pairwise (· < ·) :=
  sort_order_eq_base_plus_position mimetypes_guess_type 100 gNoPin [fBadType, fGood] "" "" none
    [MediaItem_create mimetypes_guess_type fGood "" 1] 1 false (by decide)

/-- Claim C4: a batch against a gallery that already holds 5 or more media
is rejected with a capacity error and creates nothing; below the cap, the
file list is truncated to the remaining capacity (never more than
5 - count rows are created), and in particular 3 valid images into a
gallery of 4 create exactly 1 row and emit the truncation warning. -/
theorem upload_capacity_cap (gt : String → Option String) (mb : Nat) (g : Gallery)
    (files : List UploadedFile) (pin cap : String) (so : Option Nat)
    (hpin : py_strip pin = py_strip g.upload_pin) (hne : files ≠ []) :
    (5 ≤ g.media.length →
       gallery_upload gt mb g files pin cap so = .capacityError ∧
       (gallery_upload gt mb g files pin cap so).createdItems = []) ∧
    (gallery_upload gt mb g files pin cap so).createdItems.length ≤ 5 - g.media.length ∧
    (g.media.length = 4 → files.length = 3 →
       (∀ f ∈ files, file_ok (mb * 1024 * 1024) f = true) →
       (gallery_upload gt mb g files pin cap so).createdItems.length = 1 ∧
       (gallery_upload gt mb g files pin cap so).truncWarning = true) := by
  have hnp : ¬ (py_strip g.upload_pin ≠ "" ∧ py_strip g.upload_pin ≠ py_strip pin) :=
    fun hc => hc.2 hpin.symm
  have heq := gallery_upload_eq gt mb g files pin cap so hnp
  rw [if_neg hne] at heq
  refine ⟨?_, ?_, ?_⟩
  · intro h5
    have hr : 5 - g.media.length = 0 := by omega
    rw [heq, if_pos hr]
    exact ⟨rfl, rfl⟩
  · by_cases hr : 5 - g.media.length = 0
    · rw [heq, if_pos hr]
      simp [UploadResult.createdItems]
    · rw [heq, if_neg hr]
      simp only [UploadResult.createdItems]
      rw [upload_loop_length]
      exact le_trans (List.countP_le_length _) (List.length_take_le _ _)
  · intro h4 hlen hall
    have hr : 5 - g.media.length = 1 := by omega
    rw [heq, if_neg (by omega : ¬ 5 - g.media.length = 0), hr]
    cases files with
    | nil => exact absurd rfl hne
    | cons f fs =>
      obtain ⟨hs, ht⟩ := (Bool.and_eq_true _ _).mp (hall f (List.mem_cons_self f fs))
      have hloop :
          upload_loop gt (mb * 1024 * 1024) cap (so.getD g.media.length) ((f :: fs).take 1) 0 =
            ([MediaItem_create gt f cap (so.getD g.media.length + 0)], 0) := by
        simp [upload_loop, hs, ht]
      rw [hloop]
      refine ⟨rfl, ?_⟩
      simp [UploadResult.truncWarning, hlen]

/-- Witness for C4: gallery with 4 media, batch of 3 valid files. -/
theorem upload_capacity_cap_witness :
    (5 ≤ gFour.media.length →
       gallery_upload mimetypes_guess_type 100 gFour [fGood, fVid, fGood] "" "" none =
         .capacityError ∧
       (gallery_upload mimetypes_guess_type 100 gFour [fGood, fVid, fGood] "" ""
         none).createdItems = []) ∧
    (gallery_upload mimetypes_guess_type 100 gFour [fGood, fVid, fGood] "" ""
       none).createdItems.length ≤ 5 - gFour.media.length ∧
    (gFour.media.length = 4 → [fGood, fVid, fGood].length = 3 →
       (∀ f ∈ [fGood, fVid, fGood], file_ok (100 * 1024 * 1024) f = true) →
       (gallery_upload mimetypes_guess_type 100 gFour [fGood, fVid, fGood] "" ""
          none).createdItems.length = 1 ∧
       (gallery_upload mimetypes_guess_type 100 gFour [fGood, fVid, fGood] "" ""
          none).truncWarning = true) :=
  upload_capacity_cap mimetypes_guess_type 100 gFour [fGood, fVid, fGood] "" "" none
    rfl (by decide)

/-- Claim C7: a file failing the size or type check is skipped individually
(the counts add up over the truncated batch, which is never aborted) and
the batch is reported a success exactly when at least one row was
created. -/
theorem upload_per_file_errors (gt : String → Option String) (mb : Nat) (g : Gallery)
    (files : List UploadedFile) (pin cap : String) (so : Option Nat)
    (items : List MediaItemRec) (errors : Nat) (trunc : Bool)
    (h : gallery_upload gt mb g files pin cap so = .done items errors trunc) :
    items.length =
      (files.take (5 - g.media.length)).countP (fun f => file_ok (mb * 1024 * 1024) f) ∧
    errors =
      (files.take (5 - g.media.length)).countP (fun f => ! file_ok (mb * 1024 * 1024) f) ∧
    items.length + errors = (files.take (5 - g.media.length)).length ∧
    ((gallery_upload gt mb g files pin cap so).successMsg = true ↔ items ≠ []) := by
  obtain ⟨rfl, rfl, -, -, -⟩ :=
    gallery_upload_done_inv gt mb g files pin cap so items errors trunc h
  refine ⟨upload_loop_length _ _ _ _ _ _, ?_, ?_, ?_⟩
  · rw [upload_loop_spec]
  · rw [upload_loop_length]
    rw [show (upload_loop gt (mb * 1024 * 1024) cap (so.getD g.media.length)
        (files.take (5 - g.media.length)) 0).2 =
        (files.take (5 - g.media.length)).countP
          (fun f => ! file_ok (mb * 1024 * 1024) f) from by rw [upload_loop_spec]]
    exact countP_add_countP_not _ _
  · rw [h]
    simp [UploadResult.successMsg, List.isEmpty_iff]

/-- Witness for C7: the batch [oversized "huge.png", valid "pic.png"]
creates 1 row, counts 1 error and reports success. -/
theorem upload_per_file_errors_witness :
    [MediaItem_create mimetypes_guess_type fGood "" 1].length =
      ([fBig, fGood].take (5 - gNoPin.media.length)).countP
        (fun f => file_ok (100 * 1024 * 1024) f) ∧
    1 = ([fBig, fGood].take (5 - gNoPin.media.length)).countP
        (fun f => ! file_ok (100 * 1024 * 1024) f) ∧
    [MediaItem_create mimetypes_guess_type fGood "" 1].length + 1 =
      ([fBig, fGood].take (5 - gNoPin.media.length)).length ∧
    ((gallery_upload mimetypes_guess_type 100 gNoPin [fBig, fGood] "" "" none).successMsg = true ↔
      [MediaItem_create mimetypes_guess_type fGood "" 1] ≠ []) :=
  upload_per_file_errors mimetypes_guess_type 100 gNoPin [fBig, fGood] "" "" none
    [MediaItem_create mimetypes_guess_type fGood "" 1] 1 false (by decide)

/-- Claim C9: capacity truncation happens before per-file validation, so
the number of rows created equals the number of validation-passing files
among the first (5 - existing count) submitted files. -/
theorem truncation_before_validation (gt : String → Option String) (mb : Nat)
    (g : Gallery) (files : List UploadedFile) (pin cap : String) (so : Option Nat)
    (items : List MediaItemRec) (errors : Nat) (trunc : Bool)
    (h : gallery_upload gt mb g files pin cap so = .done items errors trunc) :
    items.length = ((files.take (5 - g.media.length)).filter
      (fun f => file_ok (mb * 1024 * 1024) f)).length := by
  obtain ⟨rfl, -, -, -, -⟩ :=
    gallery_upload_done_inv gt mb g files pin cap so items errors trunc h
  rw [upload_loop_length, List.countP_eq_length_filter]

/-- Witness for C9: six files — five invalid then one valid — into an empty
gallery create zero rows, because only the first five consume the capacity
slots and the valid sixth file is cut off by the truncation. -/
theorem truncation_before_validation_witness :
    ([] : List MediaItemRec).length =
      (([fBadType, fBadType, fBadType, fBadType, fBadType, fGood].take
          (5 - gNoPin.media.length)).filter
        (fun f => file_ok (100 * 1024 * 1024) f)).length :=
  truncation_before_validation mimetypes_guess_type 100 gNoPin
    [fBadType, fBadType, fBadType, fBadType, fBadType, fGood] "" "" none [] 5 true (by decide)

/-- Counterexample to C6 as stated: `tagStore` holds a QRTag with token
"abc123" that points at an existing gallery, yet both QR endpoints answer
NotFound for "abc123" — the path argument is never resolved as a QRTag
token, only as a gallery uuid. -/
theorem qr_token_not_resolved_counterexample :
    (tagStore.qr_tags.any fun t => t.token == "abc123" &&
       (find_gallery tagStore t.galleryUuid).isSome) = true ∧
    qrcode_image tagStore "abc123" = none ∧
    qrcode_download tagStore "abc123" = none := by decide

/-- Amended C6: the QR image and download endpoints resolve their path
argument as a gallery identifier ONLY; they succeed exactly when a gallery
with that uuid exists, encode that gallery's public URL, and the download
variant sets an attachment disposition named qrcode_(uuid).png while the
inline variant sets no disposition. -/
theorem qr_resolves_gallery_only (store : Store) (arg : String) :
    ((qrcode_image store arg).isSome ↔ ∃ g ∈ store.galleries, g.uuid = arg) ∧
    ((qrcode_download store arg).isSome ↔ ∃ g ∈ store.galleries, g.uuid = arg) ∧
    (∀ resp, qrcode_image store arg = some resp → resp.disposition = none) ∧
    (∀ resp, qrcode_download store arg = some resp →
       ∃ g ∈ store.galleries, g.uuid = arg ∧ resp.url = "/g/" ++ g.uuid ∧
         resp.content_type = "image/png" ∧
         resp.disposition = some ("attachment; filename=\"qrcode_" ++ g.uuid ++ ".png\"")) := by
  refine ⟨?_, ?_, ?_, ?_⟩
  · simp [qrcode_image, find_gallery, List.find?_isSome]
  · simp [qrcode_download, find_gallery, List.find?_isSome]
  · intro resp h
    simp only [qrcode_image, Option.map_eq_some'] at h
    obtain ⟨g, -, rfl⟩ := h
    rfl
  · intro resp h
    simp only [qrcode_download, find_gallery, Option.map_eq_some'] at h
    obtain ⟨g, hfind, rfl⟩ := h
    have hp : g.uuid = arg := by simpa using List.find?_some hfind
    exact ⟨g, List.mem_of_find?_eq_some hfind, hp, rfl, rfl, rfl⟩

/-- Witness for amended C6, at the concrete store and its gallery uuid. -/
theorem qr_resolves_gallery_only_witness :
    ((qrcode_image tagStore "u-1").isSome ↔ ∃ g ∈ tagStore.galleries, g.uuid = "u-1") ∧
    ((qrcode_download tagStore "u-1").isSome ↔ ∃ g ∈ tagStore.galleries, g.uuid = "u-1") ∧
    (∀ resp, qrcode_image tagStore "u-1" = some resp → resp.disposition = none) ∧
    (∀ resp, qrcode_download tagStore "u-1" = some resp →
       ∃ g ∈ tagStore.galleries, g.uuid = "u-1" ∧ resp.url = "/g/" ++ g.uuid ∧
         resp.content_type = "image/png" ∧
         resp.disposition = some ("attachment; filename=\"qrcode_" ++ g.uuid ++ ".png\"")) :=
  qr_resolves_gallery_only tagStore "u-1"

/-- Claim C8: deletion answers NotFound when the item does not belong to
the stated gallery, and otherwise succeeds and removes the database row
whether or not the storage-file removal failed (the failure is swallowed:
`sf` is universally quantified and the response is `some` either way). -/
theorem media_delete_not_found_or_removes (sf : Bool) (gs : List String)
    (uuid : String) (item_id : Nat) (st : DelState)
    (hg : gs.contains uuid = true) :
    (st.items.find? (fun p => p.1 == item_id && p.2 == uuid) = none →
       media_delete sf gs "POST" uuid item_id st = none) ∧
    (∀ q, st.items.find? (fun p => p.1 == item_id && p.2 == uuid) = some q →
       media_delete sf gs "POST" uuid item_id st =
         some { items := st.items.filter (fun p => p.1 ≠ item_id),
                storage := if sf then st.storage
                           else st.storage.filter (fun i => i ≠ item_id) }) := by
  have hmem : uuid ∈ gs := by simpa using hg
  constructor
  · intro hfind
    simp [media_delete, hg, hmem, hfind]
  · intro q hfind
    simp [media_delete, hg, hmem, hfind]

/-- Witness for C8, with a failing storage backend (`sf = true`): item 1
belongs to gallery "u-1", the row is removed, the response is a success. -/
theorem media_delete_not_found_or_removes_witness :
    (exDelState.items.find? (fun p => p.1 == 1 && p.2 == "u-1") = none →
       media_delete true ["u-1", "u-2"] "POST" "u-1" 1 exDelState = none) ∧
    (∀ q, exDelState.items.find? (fun p => p.1 == 1 && p.2 == "u-1") = some q →
       media_delete true ["u-1", "u-2"] "POST" "u-1" 1 exDelState =
         some { items := exDelState.items.filter (fun p => p.1 ≠ 1),
                storage := if true then exDelState.storage
                           else exDelState.storage.filter (fun i => i ≠ 1) }) :=
  media_delete_not_found_or_removes true ["u-1", "u-2"] "u-1" 1 exDelState (by decide)

end QuesQR
